import Mathlib

/-!
Verification of the sports-data pipelines (fulldata.py, hitters.py,
soft_matchups.py): a shallow embedding of the pure data transformations
— leaderboard flattening, barrel classification, groupby/mean enrichment,
matchup softness ranking, schedule reading and the workbook sheet writer —
together with theorems settling the specified properties.

Python floats are modelled as rationals (ℚ); a missing value (None / NaN)
is modelled as Option.none; dictionaries are modelled as functions into
Option or as association lists; HTTP data sources are modelled as oracle
arguments carrying the already-parsed response shape.
-/

namespace SportsData

/-! ### Rounding

Python's builtin round(x, 4) maps x to a nearest multiple of 1/10000.
Both HR-percentage computations round with the same call, so one shared
model suffices for comparing them. -/

/-- Model of Python round(x, 4): round to the nearest multiple of 1/10000. -/
def round4 (q : ℚ) : ℚ := ((round (q * 10000) : ℤ) : ℚ) / 10000

/-! ### Home-run percentage

fulldata.py, fetch_top75_and_enrich, lines 32–33:
  ab = st.get("atBats", 0) or 0
  hr_pct = round(st.get("homeRuns", 0) / ab, 4) if ab > 0 else None

hitters.py, fetch_top50, line 60:
  "HR%": round(s["stat"]["homeRuns"] / (s["stat"].get("atBats") or 1), 4)
-/

/-- HR% of one split row in fulldata.fetch_top75_and_enrich.
A missing or zero at-bats count yields None. -/
def top75HrPct (homeRuns : Option ℕ) (atBats : Option ℕ) : Option ℚ :=
  let ab : ℕ := atBats.getD 0
  if 0 < ab then some (round4 ((homeRuns.getD 0 : ℚ) / (ab : ℚ))) else none

/-- HR% of one split row in hitters.fetch_top50. The divisor is
(atBats or 1): a missing or zero at-bats count divides by 1, so the
field is always present. -/
def top50HrPct (homeRuns : ℕ) (atBats : Option ℕ) : ℚ :=
  let d : ℕ :=
    match atBats with
    | none => 1
    | some a => if a = 0 then 1 else a
  round4 ((homeRuns : ℚ) / (d : ℚ))

/-! ### Barrel classification

hitters.py, compute_barrel, lines 100–111 (fulldata.py lines 54–59 are
the same computation inlined):
  speed = df_sc["launch_speed"].fillna(0)
  angle = df_sc["launch_angle"].fillna(0)
  cond1 = (speed >= 98)  & angle.between(26, 30)
  cond2 = (speed >= 105) & angle.between(19, 26)
  cond3 = (speed >= 109) & angle.between(13, 19)
  return (cond1 | cond2 | cond3).astype(int)
-/

/-- pandas Series.fillna(0) on a single cell. -/
def fillna0 (x : Option ℚ) : ℚ := x.getD 0

/-- pandas Series.between(lo, hi): inclusive on both ends. -/
def betweenIncl (x lo hi : ℚ) : Bool := decide (lo ≤ x) && decide (x ≤ hi)

/-- Barrel flag of one batted-ball sample (hitters.compute_barrel applied
cellwise, which is also the inlined computation in fulldata). -/
def compute_barrel (launch_speed launch_angle : Option ℚ) : Bool :=
  let speed := fillna0 launch_speed
  let angle := fillna0 launch_angle
  (decide (98 ≤ speed) && betweenIncl angle 26 30) ||
  (decide (105 ≤ speed) && betweenIncl angle 19 26) ||
  (decide (109 ≤ speed) && betweenIncl angle 13 19)

/-- The barrel condition as the spec words it: three speed/angle bands,
OR-combined, over already-normalized (non-optional) inputs. -/
def barrelSpec (speed angle : ℚ) : Prop :=
  (98 ≤ speed ∧ angle ∈ Set.Icc (26 : ℚ) 30) ∨
  (105 ≤ speed ∧ angle ∈ Set.Icc (19 : ℚ) 26) ∨
  (109 ≤ speed ∧ angle ∈ Set.Icc (13 : ℚ) 19)

/-! ### Statcast enrichment

hitters.py, enrich_top50, lines 114–131 (fulldata.py lines 61–66 are the
same groupby/mean/map pattern):
  sc["barrel_flag"] = compute_barrel(sc)
  barrel_map = sc.groupby("Player_ID")["barrel_flag"].mean()
  ev_map     = sc.groupby("Player_ID")["launch_speed"].mean()
  df = df_top50.copy()
  df["Barrel%"]      = df["Player_ID"].map(barrel_map)
  df["Avg_Exit_Vel"] = df["Player_ID"].map(ev_map)
-/

/-- One Statcast batted-ball sample: batter id, launch speed, launch
angle (the three columns the scripts keep). -/
structure Sample where
  batter : ℕ
  launch_speed : Option ℚ
  launch_angle : Option ℚ
deriving DecidableEq

/-- The 0/1 barrel flag column value of a sample. -/
def barrelFlag (s : Sample) : ℚ :=
  if compute_barrel s.launch_speed s.launch_angle then 1 else 0

/-- The groupby group of one player: all samples with that batter id. -/
def playerSamples (samples : List Sample) (pid : ℕ) : List Sample :=
  samples.filter (fun s => decide (s.batter = pid))

/-- groupby("batter")["barrel_flag"].mean() looked up at one player id.
The barrel flag column is integer-valued (never NaN), so pandas mean
divides by the full group size; a player with no samples is absent from
the groupby result, so Series.map yields NaN (none). -/
def barrelMap (samples : List Sample) (pid : ℕ) : Option ℚ :=
  let g := playerSamples samples pid
  if g.isEmpty then none
  else some ((g.map barrelFlag).sum / (g.length : ℚ))

/-- groupby("batter")["launch_speed"].mean() looked up at one player id.
pandas mean skips NaN cells in both numerator and denominator; a group
whose speeds are all NaN has mean NaN, and an absent player maps to NaN,
both modelled as none. -/
def evMap (samples : List Sample) (pid : ℕ) : Option ℚ :=
  let v := (playerSamples samples pid).filterMap Sample.launch_speed
  if v.isEmpty then none
  else some (v.sum / (v.length : ℚ))

/-- One flattened leaderboard row (fetch_top50 / fetch_top75 output).
avg and slg are copied verbatim from the API (string-typed there). -/
structure StatRow where
  player_id : ℕ
  batter : String
  hrs : ℕ
  games : ℕ
  avg : String
  slg : String
  hr_pct : Option ℚ
  ab : ℕ
deriving DecidableEq

/-- A leaderboard row with the two enrichment columns added. -/
structure EnrichedRow where
  base : StatRow
  barrelPct : Option ℚ
  avgExitVel : Option ℚ
deriving DecidableEq

/-- enrich_top50's frame operation: copy the leaderboard and add the two
mapped aggregate columns (fulldata lines 65–66 are identical). -/
def enrich (df : List StatRow) (samples : List Sample) : List EnrichedRow :=
  df.map (fun r =>
    { base := r
      barrelPct := barrelMap samples r.player_id
      avgExitVel := evMap samples r.player_id })

/-- Mean of a list of rationals, none when the list is empty. -/
def listMean (l : List ℚ) : Option ℚ :=
  if l.isEmpty then none else some (l.sum / (l.length : ℚ))

/-- Modelled from the claim's words, for comparison with evMap: the mean
launch speed over ALL of the player's samples, counting samples whose
launch speed is missing in the denominator. -/
def evMapClaim (samples : List Sample) (pid : ℕ) : Option ℚ :=
  let g := playerSamples samples pid
  if g.isEmpty then none
  else some ((g.filterMap Sample.launch_speed).sum / (g.length : ℚ))

/-! ### Schedule shapes shared by the matchup builder and softness ranker -/

/-- A probablePitcher object of the schedule response; either field may
be missing. An absent object is modelled as none at the use site. -/
structure ProbablePitcher where
  fullName : Option String
  id : Option ℕ
deriving DecidableEq

/-- One scheduled game as read by the matchup code: team names plus the
optional probablePitcher objects. -/
structure SchedGame where
  homeTeam : String
  awayTeam : String
  homePitcher : Option ProbablePitcher
  awayPitcher : Option ProbablePitcher
deriving DecidableEq

/-- One entry of the schedule response's dates list. -/
structure SchedDate where
  games : List SchedGame
deriving DecidableEq

/-- g["teams"][side].get("probablePitcher", {}).get("id"): the starter id
if both the pitcher object and its id are present. -/
def pitcherIdOf (p : Option ProbablePitcher) : Option ℕ :=
  p.bind ProbablePitcher.id

/-- g["teams"][side].get("probablePitcher", {}).get("fullName", ""):
the starter name, defaulting to the empty string. -/
def pitcherNameOf (p : Option ProbablePitcher) : String :=
  (p.bind ProbablePitcher.fullName).getD ""

/-! ### Matchup softness ranker (soft_matchups.py) -/

/-- soft_matchups.fetch_pitcher_era: returns None for a missing pitcher
id without consulting the source; otherwise the oracle holds the parsed
ERA of the HTTP response, already None for every malformed-shape or
unparsable-era case handled by the guards in lines 37–50. -/
def fetch_pitcher_era (eraSource : ℕ → Option ℚ) (pid : Option ℕ) : Option ℚ :=
  pid.bind eraSource

/-- soft_matchups.main lines 65–68: the maximum of the ERAs that are not
None; None when both are unknown. -/
def softness (home_era away_era : Option ℚ) : Option ℚ :=
  match ([home_era, away_era]).filterMap id with
  | [] => none
  | e :: es => some (es.foldl max e)

/-- One row of the softness table (soft_matchups.main lines 70–80). -/
structure SoftRow where
  away : String
  home : String
  awayStarterName : String
  awayEra : Option ℚ
  homeStarterName : String
  homeEra : Option ℚ
  softnessCol : Option ℚ
deriving DecidableEq

/-- Build one softness-table row from a scheduled game. -/
def mkSoftRow (eraSource : ℕ → Option ℚ) (g : SchedGame) : SoftRow :=
  let home_era := fetch_pitcher_era eraSource (pitcherIdOf g.homePitcher)
  let away_era := fetch_pitcher_era eraSource (pitcherIdOf g.awayPitcher)
  { away := g.awayTeam
    home := g.homeTeam
    awayStarterName := pitcherNameOf g.awayPitcher
    awayEra := away_era
    homeStarterName := pitcherNameOf g.homePitcher
    homeEra := home_era
    softnessCol := softness home_era away_era }

/-- The whole rows list of soft_matchups.main. -/
def buildSoftRows (eraSource : ℕ → Option ℚ) (games : List SchedGame) : List SoftRow :=
  games.map (mkSoftRow eraSource)

/-- Insertion step of a descending sort on the softness key (missing
keys only ever enter through the second operand's tail, never here). -/
def insertBySoftness (r : SoftRow) : List SoftRow → List SoftRow
  | [] => [r]
  | x :: xs =>
    if x.softnessCol.getD 0 ≤ r.softnessCol.getD 0 then r :: x :: xs
    else x :: insertBySoftness r xs

/-- Descending insertion sort on the softness key. -/
def sortRowsDesc (l : List SoftRow) : List SoftRow :=
  l.foldr insertBySoftness []

/-- df.sort_values("Softness", ascending=False): rows whose key is a
real value are sorted in descending key order; rows with a missing key
(NaN) are placed after all of them (pandas default na_position). -/
def sortSoftestFirst (rows : List SoftRow) : List SoftRow :=
  sortRowsDesc (rows.filter (fun r => r.softnessCol.isSome)) ++
    rows.filter (fun r => !r.softnessCol.isSome)

/-! ### Matchup builder stat cells (hitters.fetch_today_matchups)

Lines 183–186 default a missing starter name or id to "":
  "Home_Starter_ID": home_pitcher.get("id", ""),
Lines 194–196 attach stats through a dict lookup that defaults to "":
  df[side + "_ERA"] = ids.map(lambda pid: stats_map.get(pid, {}).get("ERA", ""))
-/

/-- A cell of the starter-id column: a player id, or the empty string
written when the id is unavailable. -/
inductive IdCell where
  | pid (n : ℕ)
  | emptyStr
deriving DecidableEq

/-- A cell of the ERA / SO columns: a numeric stat, the empty string, or
an absent value (NaN) — the last never produced by this code but needed
to state what "absent" would mean. -/
inductive StatCell where
  | num (q : ℚ)
  | emptyStr
  | absent
deriving DecidableEq

/-- One row of the pitcher leaderboard used as the lookup source (only
the fields the matchup join reads). -/
structure PitcherStats where
  so : ℕ
  era : ℚ
deriving DecidableEq

/-- The Home_Starter_ID / Away_Starter_ID cell built in lines 183–186. -/
def starterIdCell (p : Option ProbablePitcher) : IdCell :=
  match pitcherIdOf p with
  | some n => IdCell.pid n
  | none => IdCell.emptyStr

/-- stats_map.get(pid, {}).get("ERA", ""): an empty-string id never
matches an integer key, and a lookup miss defaults to "". -/
def lookupEraCell (statsMap : ℕ → Option PitcherStats) : IdCell → StatCell
  | IdCell.pid n =>
    match statsMap n with
    | some st => StatCell.num st.era
    | none => StatCell.emptyStr
  | IdCell.emptyStr => StatCell.emptyStr

/-- stats_map.get(pid, {}).get("SO", ""), same lookup for strikeouts. -/
def lookupSOCell (statsMap : ℕ → Option PitcherStats) : IdCell → StatCell
  | IdCell.pid n =>
    match statsMap n with
    | some st => StatCell.num (st.so : ℚ)
    | none => StatCell.emptyStr
  | IdCell.emptyStr => StatCell.emptyStr

/-! ### Day-range event fetch (fulldata.fetch_daily_homers_for) -/

/-- The hitData block of a play sub-event. -/
structure HitData where
  launchSpeed : Option ℚ
  totalDistance : Option ℚ
deriving DecidableEq

/-- One play sub-event: its details.type.description (None when any of
the nesting levels is missing) and its optional hitData block. -/
structure PlayEvent where
  typeDescription : Option String
  hitData : Option HitData
deriving DecidableEq

/-- One play of the live feed: result.eventType, the matchup names, the
optional pitchType, and the sub-event list. -/
structure Play where
  eventType : String
  batterName : Option String
  pitcherName : Option String
  pitchType : Option String
  playEvents : List PlayEvent
deriving DecidableEq

/-- One output row of fetch_daily_homers_for. -/
structure HRRow where
  date : String
  batter : Option String
  exitVel : Option ℚ
  distance : Option ℚ
  pitch : Option String
  pitcher : Option String
deriving DecidableEq

/-- The loop of lines 98–104: the first sub-event whose type description
equals "home_run". -/
def firstHomeRunEvent (evs : List PlayEvent) : Option PlayEvent :=
  evs.find? (fun ev => decide (ev.typeDescription = some "home_run"))

/-- exit_vel after the loop: launchSpeed of the first matching
sub-event's hitData, None when there is no match or no hitData. -/
def playExitVel (p : Play) : Option ℚ :=
  match firstHomeRunEvent p.playEvents with
  | none => none
  | some ev =>
    match ev.hitData with
    | none => none
    | some hd => hd.launchSpeed

/-- distance after the loop, same extraction as playExitVel. -/
def playDistance (p : Play) : Option ℚ :=
  match firstHomeRunEvent p.playEvents with
  | none => none
  | some ev =>
    match ev.hitData with
    | none => none
    | some hd => hd.totalDistance

/-- The row appended for one qualifying play (lines 106–113). -/
def playToRow (dstr : String) (p : Play) : HRRow :=
  { date := dstr
    batter := p.batterName
    exitVel := playExitVel p
    distance := playDistance p
    pitch := p.pitchType
    pitcher := p.pitcherName }

/-- The rows contributed by one game's feed: one row per play whose
result.eventType is "home_run", in feed order (lines 86–113). -/
def gameRows (dstr : String) (plays : List Play) : List HRRow :=
  (plays.filter (fun p => decide (p.eventType = "home_run"))).map (playToRow dstr)

/-- One game entry of the day schedule (only gamePk is read). -/
structure Game where
  gamePk : ℕ
deriving DecidableEq

/-- One entry of the dates list of the plain schedule response. -/
structure DateGroup where
  games : List Game
deriving DecidableEq

/-- fetch_daily_homers_for on date dstr: an empty dates list yields an
empty frame (lines 75–77); otherwise every game of the first dates entry
contributes its rows in schedule order (lines 79–113). The feeds oracle
maps a gamePk to the parsed allPlays list of its live feed. -/
def fetch_daily_homers_for (dstr : String) (sched : List DateGroup)
    (feeds : ℕ → List Play) : List HRRow :=
  match sched with
  | [] => []
  | d :: _ => d.games.flatMap (fun g => gameRows dstr (feeds g.gamePk))

/-! ### The two schedule readers compared by C10 -/

/-- hitters.fetch_today_matchups lines 171–173:
resp.json().get("dates", [])[0].get("games", []) — indexing an empty
dates list raises IndexError, modelled as an error value. -/
def hittersReadGames (dates : List SchedDate) : Except String (List SchedGame) :=
  match dates with
  | [] => Except.error "list index out of range"
  | d :: _ => Except.ok d.games

/-- soft_matchups.fetch_schedule lines 23–24:
dates[0].get("games", []) if dates else [] — an empty dates list yields
an empty game list. -/
def softReadGames (dates : List SchedDate) : List SchedGame :=
  match dates with
  | [] => []
  | d :: _ => d.games

/-! ### Report writer (fulldata.write_sheet, hitters.write_sheets) -/

/-- A sheet's tabular content, abstracted as rows of cells. -/
abbrev Table := List (List String)

/-- A workbook: named sheets in insertion order. -/
abbrev Workbook := List (String × Table)

/-- Whether a sheet with the given name exists. -/
def hasSheet : Workbook → String → Bool
  | [], _ => false
  | p :: ps, name => decide (p.1 = name) || hasSheet ps name

/-- The content of the named sheet, if present. -/
def getSheet : Workbook → String → Option Table
  | [], _ => none
  | p :: ps, n => if p.1 = n then some p.2 else getSheet ps n

/-- pandas ExcelWriter(mode="a", if_sheet_exists="replace") followed by
to_excel: replace the named sheet in place if it exists, else append
it; every other sheet is untouched. Sheet names are unique within an
openpyxl workbook, so replacing the first occurrence is replacement. -/
def setSheet : Workbook → String → Table → Workbook
  | [], name, t => [(name, t)]
  | p :: ps, name, t =>
    if p.1 = name then (name, t) :: ps else p :: setSheet ps name t

/-- The writer mode selected by the callers: "w" fresh, "a" append. -/
inductive WMode where
  | w
  | a
deriving DecidableEq

/-- fulldata.write_sheet lines 119–127: mode "w" creates a workbook with
exactly the one sheet; mode "a" opens the existing workbook wb and
replaces-or-appends the one sheet. -/
def write_sheet (wb : Workbook) (df : Table) (name : String) (mode : WMode) : Workbook :=
  match mode with
  | WMode.w => [(name, df)]
  | WMode.a => setSheet wb name df

/-- Sheet names written by hitters.write_sheets (lines 144–147). -/
def sheetDaily (d : String) : String := d ++ "_HR_Hitters"

/-- Top-50 leaderboard sheet name. -/
def sheetTop50 (d : String) : String := d ++ "_Top_HR_Batters"

/-- Pitcher leaderboard sheet name. -/
def sheetPitchers (d : String) : String := d ++ "_Top_Pitchers"

/-- Matchups sheet name. -/
def sheetMatchups (d : String) : String := d ++ "_Matchups"

/-- hitters.write_sheets lines 134–160: mode is "a" exactly when the
output file already holds a workbook (existing = some wb), else "w"
starts from an empty fresh workbook. The daily and top-50 tables are
always written; the pitchers table when passed; the matchups table only
when passed and non-empty (the one empty-table skip in this writer). -/
def write_sheets (existing : Option Workbook) (df_daily df_top50 : Table)
    (date_str : String) (df_pitchers df_matchups : Option Table) : Workbook :=
  let wb0 : Workbook := existing.getD []
  let wb1 := setSheet wb0 (sheetDaily date_str) df_daily
  let wb2 := setSheet wb1 (sheetTop50 date_str) df_top50
  let wb3 :=
    match df_pitchers with
    | some t => setSheet wb2 (sheetPitchers date_str) t
    | none => wb2
  match df_matchups with
  | some t => if t.isEmpty then wb3 else setSheet wb3 (sheetMatchups date_str) t
  | none => wb3

/-! ### Concrete example values used by witnesses -/

/-- A leaderboard row for player 7. -/
def exStatRow : StatRow :=
  { player_id := 7, batter := "A", hrs := 10, games := 20,
    avg := ".300", slg := ".500", hr_pct := none, ab := 40 }

/-- A batted-ball sample of player 7: 100 mph at 28 degrees. -/
def exSample : Sample :=
  { batter := 7, launch_speed := some 100, launch_angle := some 28 }

/-- The enriched row produced for exStatRow from [exSample]. -/
def exEnriched : EnrichedRow :=
  { base := exStatRow
    barrelPct := barrelMap [exSample] 7
    avgExitVel := evMap [exSample] 7 }

/-- A leaderboard row for player 9, absent from [exSample]. -/
def exStatRow9 : StatRow :=
  { player_id := 9, batter := "B", hrs := 5, games := 10,
    avg := ".250", slg := ".400", hr_pct := none, ab := 30 }

/-- The enriched row produced for exStatRow9 from [exSample]. -/
def exEnriched9 : EnrichedRow :=
  { base := exStatRow9
    barrelPct := barrelMap [exSample] 9
    avgExitVel := evMap [exSample] 9 }

/-- A home-run play with no sub-events, hence no hit data. -/
def exPlayNoSub : Play :=
  { eventType := "home_run", batterName := some "B", pitcherName := some "P",
    pitchType := none, playEvents := [] }

/-- A sub-event of type home_run carrying hit data. -/
def exHomeRunSub : PlayEvent :=
  { typeDescription := some "home_run"
    hitData := some { launchSpeed := some 105, totalDistance := some 410 } }

/-- A home-run play whose second sub-event is the matching one. -/
def exPlayFull : Play :=
  { eventType := "home_run", batterName := some "C", pitcherName := some "Q",
    pitchType := some "FF",
    playEvents := [{ typeDescription := some "foul", hitData := none }, exHomeRunSub] }

/-! ## Helper lemmas -/

/-- The boolean classifier agrees with the spec's three-band condition
after fillna(0) normalization. -/
theorem compute_barrel_iff (os oa : Option ℚ) :
    compute_barrel os oa = true ↔ barrelSpec (os.getD 0) (oa.getD 0) := by
  simp [compute_barrel, barrelSpec, betweenIncl, fillna0, Set.mem_Icc]
  tauto

/-- A sample with a missing launch speed is never a barrel: the speed is
normalized to 0 and every band demands speed at least 98. -/
theorem compute_barrel_missing_speed (oa : Option ℚ) :
    compute_barrel none oa = false := by
  rw [Bool.eq_false_iff]
  intro h
  rw [compute_barrel_iff] at h
  rcases h with ⟨h1, _⟩ | ⟨h1, _⟩ | ⟨h1, _⟩ <;>
    simp only [Option.getD_none] at h1 <;> norm_num at h1

/-- A sample with a missing launch angle is never a barrel: the angle is
normalized to 0, which lies in none of the three bands. -/
theorem compute_barrel_missing_angle (os : Option ℚ) :
    compute_barrel os none = false := by
  rw [Bool.eq_false_iff]
  intro h
  rw [compute_barrel_iff] at h
  rcases h with ⟨_, h2⟩ | ⟨_, h2⟩ | ⟨_, h2⟩ <;>
    rw [Set.mem_Icc] at h2 <;>
    simp only [Option.getD_none] at h2 <;>
    exact absurd h2.1 (by norm_num)

/-! ## C1: home-run percentage -/

/-- C1 (counterexample): at at-bats = 0 the claim demands an absent HR%
from both fetch operations, but fetch_top50 divides by (atBats or 1)
and yields the defined value round(hr / 1, 4); with home-runs = 50 and
at-bats = 0 its HR% cell is 50, while fetch_top75_and_enrich's is
absent. -/
theorem top50_hr_pct_defined_at_zero_ab :
    top50HrPct 50 (some 0) = 50 ∧ top75HrPct (some 50) (some 0) = none := by
  constructor
  · norm_num [top50HrPct, round4, round_eq]
  · simp [top75HrPct]

/-- C1 (amended): when at-bats > 0 both fetch operations derive
HR% = round(home runs / at-bats, 4), and 50 home runs over 200 at-bats
give 0.2500 in both; when at-bats = 0, fetch_top75_and_enrich leaves the
field absent, while fetch_top50 instead divides by 1 and produces the
defined value round(hr / 1, 4). -/
theorem hr_pct_amended (hr ab : ℕ) (hab : 0 < ab) :
    top75HrPct (some hr) (some ab) = some (round4 ((hr : ℚ) / (ab : ℚ))) ∧
    top50HrPct hr (some ab) = round4 ((hr : ℚ) / (ab : ℚ)) ∧
    top75HrPct (some hr) (some 0) = none ∧
    top50HrPct hr (some 0) = round4 ((hr : ℚ) / 1) ∧
    top75HrPct (some 50) (some 200) = some 0.25 ∧
    top50HrPct 50 (some 200) = 0.25 := by
  refine ⟨?_, ?_, ?_, ?_, ?_, ?_⟩
  · simp [top75HrPct, hab]
  · simp [top50HrPct, hab.ne']
  · simp [top75HrPct]
  · simp [top50HrPct]
  · norm_num [top75HrPct, round4, round_eq]
  · norm_num [top50HrPct, round4, round_eq]

/-- Witness for hr_pct_amended at home runs = 50, at-bats = 200. -/
theorem hr_pct_amended_witness :
    0 < 200 ∧ top75HrPct (some 50) (some 200) = some 0.25 :=
  ⟨by decide, (hr_pct_amended 50 200 (by decide)).2.2.2.2.1⟩

/-! ## C2: barrel classification -/

/-- C2: barrel classification is a total deterministic boolean function
of (speed, angle); it holds exactly when one of the three OR-combined
bands holds after a missing speed or angle is normalized to 0; a sample
with any missing value is never a barrel; (100, 28) is a barrel,
(100, 10) is not, and (missing, missing) is not. -/
theorem barrel_classification_correct :
    (∀ os oa : Option ℚ,
        compute_barrel os oa = true ↔ barrelSpec (os.getD 0) (oa.getD 0)) ∧
    (∀ oa, compute_barrel none oa = false) ∧
    (∀ os, compute_barrel os none = false) ∧
    compute_barrel (some 100) (some 28) = true ∧
    compute_barrel (some 100) (some 10) = false ∧
    compute_barrel none none = false := by
  refine ⟨compute_barrel_iff, compute_barrel_missing_speed,
    compute_barrel_missing_angle, ?_, ?_, compute_barrel_missing_speed none⟩
  · rw [compute_barrel_iff]
    simp only [Option.getD_some]
    exact Or.inl ⟨by norm_num, Set.mem_Icc.mpr ⟨by norm_num, by norm_num⟩⟩
  · rw [Bool.eq_false_iff]
    intro h
    rw [compute_barrel_iff] at h
    simp only [Option.getD_some] at h
    rcases h with ⟨h1, h2⟩ | ⟨h1, h2⟩ | ⟨h1, h2⟩
    · rw [Set.mem_Icc] at h2
      exact absurd h2.1 (by norm_num)
    · exact absurd h1 (by norm_num)
    · exact absurd h1 (by norm_num)

/-! ## Enrichment helper lemmas -/

/-- A defined barrel-rate lookup means the player has a sample. -/
theorem mem_of_barrelMap_isSome (samples : List Sample) (pid : ℕ)
    (h : (barrelMap samples pid).isSome = true) :
    ∃ s ∈ samples, s.batter = pid := by
  by_cases he : (playerSamples samples pid).isEmpty
  · rw [barrelMap] at h
    simp [he] at h
  · have hne : playerSamples samples pid ≠ [] := by
      simpa [List.isEmpty_iff] using he
    obtain ⟨s, hs⟩ := List.exists_mem_of_ne_nil _ hne
    rw [playerSamples, List.mem_filter] at hs
    exact ⟨s, hs.1, by simpa using hs.2⟩

/-- A defined exit-velocity lookup means the player has a sample. -/
theorem mem_of_evMap_isSome (samples : List Sample) (pid : ℕ)
    (h : (evMap samples pid).isSome = true) :
    ∃ s ∈ samples, s.batter = pid := by
  by_cases he : ((playerSamples samples pid).filterMap Sample.launch_speed).isEmpty
  · rw [evMap] at h
    simp [he] at h
  · have hne : (playerSamples samples pid).filterMap Sample.launch_speed ≠ [] := by
      simpa [List.isEmpty_iff] using he
    obtain ⟨q, hq⟩ := List.exists_mem_of_ne_nil _ hne
    obtain ⟨s, hs, _⟩ := List.mem_filterMap.mp hq
    rw [playerSamples, List.mem_filter] at hs
    exact ⟨s, hs.1, by simpa using hs.2⟩

/-- A player none of whose ids occur among the samples has an empty
groupby group. -/
theorem playerSamples_eq_nil (samples : List Sample) (pid : ℕ)
    (h : ∀ s ∈ samples, s.batter ≠ pid) :
    playerSamples samples pid = [] := by
  rw [playerSamples, List.filter_eq_nil_iff]
  intro s hs
  simpa using h s hs

/-! ## C3: the enrichment join is additive and non-duplicating -/

/-- C3: enriching a leaderboard of N rows yields exactly N rows; the
original row of every output row is unchanged; only the two aggregate
fields are added, and each is populated only when the row's player has
at least one batted-ball sample. -/
theorem enrich_additive (df : List StatRow) (samples : List Sample) :
    (enrich df samples).length = df.length ∧
    (enrich df samples).map EnrichedRow.base = df ∧
    ∀ r ∈ enrich df samples,
      r.barrelPct = barrelMap samples r.base.player_id ∧
      r.avgExitVel = evMap samples r.base.player_id ∧
      (r.barrelPct.isSome = true → ∃ s ∈ samples, s.batter = r.base.player_id) ∧
      (r.avgExitVel.isSome = true → ∃ s ∈ samples, s.batter = r.base.player_id) := by
  refine ⟨?_, ?_, ?_⟩
  · simp [enrich]
  · rw [enrich, List.map_map]
    exact List.map_id df
  · intro r hr
    rw [enrich, List.mem_map] at hr
    obtain ⟨a, _, rfl⟩ := hr
    exact ⟨rfl, rfl, fun h => mem_of_barrelMap_isSome _ _ h,
      fun h => mem_of_evMap_isSome _ _ h⟩

/-- Witness for enrich_additive on a one-row leaderboard and one
sample, discharging the membership and definedness hypotheses. -/
theorem enrich_additive_witness :
    (enrich [exStatRow] [exSample]).length = 1 ∧
    ∃ s ∈ [exSample], s.batter = exEnriched.base.player_id :=
  ⟨((enrich_additive [exStatRow] [exSample]).1).trans rfl,
   ((enrich_additive [exStatRow] [exSample]).2.2 exEnriched
      (by simp [enrich, exEnriched, exStatRow])).2.2.1 (by rfl)⟩

/-! ## C6: players absent from the samples get undefined aggregates -/

/-- C6: a leaderboard row whose player id occurs in no batted-ball
sample comes out of the enrichment join with both aggregate fields
absent — none, not zero. -/
theorem enrich_absent_player (df : List StatRow) (samples : List Sample)
    (r : EnrichedRow) (hr : r ∈ enrich df samples)
    (habs : ∀ s ∈ samples, s.batter ≠ r.base.player_id) :
    r.barrelPct = none ∧ r.avgExitVel = none := by
  rw [enrich, List.mem_map] at hr
  obtain ⟨a, _, rfl⟩ := hr
  have hnil : playerSamples samples a.player_id = [] :=
    playerSamples_eq_nil _ _ habs
  constructor
  · simp [barrelMap, hnil]
  · simp [evMap, hnil]

/-- Witness for enrich_absent_player: player 9 has no sample in
[exSample], so both of its aggregate cells are none. -/
theorem enrich_absent_player_witness :
    exEnriched9.barrelPct = none ∧ exEnriched9.avgExitVel = none :=
  enrich_absent_player [exStatRow9] [exSample] exEnriched9
    (by simp [enrich, exEnriched9, exStatRow9]) (by decide)

/-! ## C4: what sample set each aggregate averages over -/

/-- C4 (counterexample): for a player with two samples, one at speed 100
and one with a missing speed, the code's average exit velocity is
100 (pandas mean skips the missing cell in the denominator), while the
claim's same-denominator mean would be 50. -/
theorem ev_mean_denominator_counterexample :
    evMap [⟨1, some 100, some 28⟩, ⟨1, none, none⟩] 1 = some 100 ∧
    evMapClaim [⟨1, some 100, some 28⟩, ⟨1, none, none⟩] 1 = some 50 ∧
    some (100 : ℚ) ≠ some (50 : ℚ) := by
  refine ⟨?_, ?_, by norm_num⟩
  · norm_num [evMap, playerSamples, List.filterMap_cons]
  · norm_num [evMapClaim, playerSamples, List.filterMap_cons]

/-- C4 (amended): the barrel rate is the mean of the barrel flag over
all of the player's samples, but the average exit velocity is the mean
of launch speed over only those samples whose launch speed is present —
missing speeds are excluded from numerator and denominator. On the
two-sample example the barrel denominator is 2 while the exit-velocity
denominator is 1. -/
theorem aggregate_sample_sets (samples : List Sample) (pid : ℕ) :
    barrelMap samples pid = listMean ((playerSamples samples pid).map barrelFlag) ∧
    evMap samples pid
      = listMean ((playerSamples samples pid).filterMap Sample.launch_speed) ∧
    barrelMap [⟨1, some 100, some 28⟩, ⟨1, none, none⟩] 1 = some (1 / 2) ∧
    evMap [⟨1, some 100, some 28⟩, ⟨1, none, none⟩] 1 = some 100 := by
  refine ⟨?_, rfl, ?_, ?_⟩
  · simp only [barrelMap, listMean]
    cases h : playerSamples samples pid with
    | nil => simp
    | cons a as => simp
  · norm_num [barrelMap, playerSamples, barrelFlag, compute_barrel,
      betweenIncl, fillna0]
  · norm_num [evMap, playerSamples, List.filterMap_cons]

/-! ## Softness helper lemmas -/

/-- Descending insertion only rearranges: the result is a permutation of
the row consed onto the old list. -/
theorem insertBySoftness_perm (r : SoftRow) (l : List SoftRow) :
    List.Perm (insertBySoftness r l) (r :: l) := by
  induction l with
  | nil => exact List.Perm.refl _
  | cons x xs ih =>
    rw [insertBySoftness]
    by_cases h : x.softnessCol.getD 0 ≤ r.softnessCol.getD 0
    · rw [if_pos h]
    · rw [if_neg h]
      exact (ih.cons x).trans (List.Perm.swap r x xs)

/-- The descending sort is a permutation of its input. -/
theorem sortRowsDesc_perm (l : List SoftRow) :
    List.Perm (sortRowsDesc l) l := by
  induction l with
  | nil => exact List.Perm.refl _
  | cons x xs ih =>
    rw [sortRowsDesc, List.foldr_cons]
    exact (insertBySoftness_perm x _).trans (ih.cons x)

/-! ## C5: matchup softness and the softest-first ordering -/

/-- C5: softness is the maximum of the two starters' ERAs when at least
one is known (3.50 vs 4.80 gives 4.80; None vs 4.80 gives 4.80) and is
absent when both are unknown; every built row's Softness cell is this
function of its two ERAs; and the descending softest-first sort splits
the table into the defined-softness rows followed by all
undefined-softness rows, permuting nothing away. -/
theorem softness_max_and_missing_last :
    softness (some 3.5) (some 4.8) = some 4.8 ∧
    softness none (some 4.8) = some 4.8 ∧
    softness none none = none ∧
    (∀ h a : ℚ, softness (some h) (some a) = some (max h a)) ∧
    (∀ h : ℚ, softness (some h) none = some h) ∧
    (∀ a : ℚ, softness none (some a) = some a) ∧
    (∀ (eraSource : ℕ → Option ℚ) (g : SchedGame),
      (mkSoftRow eraSource g).softnessCol =
        softness (fetch_pitcher_era eraSource (pitcherIdOf g.homePitcher))
          (fetch_pitcher_era eraSource (pitcherIdOf g.awayPitcher))) ∧
    (∀ rows : List SoftRow, ∃ ds us,
      sortSoftestFirst rows = ds ++ us ∧
      List.Perm (ds ++ us) rows ∧
      (∀ r ∈ ds, r.softnessCol.isSome = true) ∧
      (∀ r ∈ us, r.softnessCol = none)) := by
  refine ⟨?_, rfl, rfl, fun h a => rfl, fun h => rfl, fun a => rfl,
    fun es g => rfl, ?_⟩
  · show some (max (3.5 : ℚ) 4.8) = some 4.8
    rw [max_eq_right (by norm_num)]
  · intro rows
    refine ⟨_, _, rfl, ?_, ?_, ?_⟩
    · exact ((sortRowsDesc_perm _).append_right _).trans
        (List.filter_append_perm _ rows)
    · intro r hr
      have hm := (sortRowsDesc_perm _).mem_iff.mp hr
      simpa using (List.mem_filter.mp hm).2
    · intro r hr
      have h2 := (List.mem_filter.mp hr).2
      rcases hc : r.softnessCol with _ | v
      · rfl
      · rw [hc] at h2
        simp at h2

/-- Witness for softness_max_and_missing_last: the 3.50 / 4.80 example
and the sort decomposition at the empty table. -/
theorem softness_max_and_missing_last_witness :
    softness (some 3.5) (some 4.8) = some 4.8 ∧
    ∃ ds us, sortSoftestFirst [] = ds ++ us ∧ List.Perm (ds ++ us) [] ∧
      (∀ r ∈ ds, r.softnessCol.isSome = true) ∧
      (∀ r ∈ us, r.softnessCol = none) :=
  ⟨softness_max_and_missing_last.1,
   softness_max_and_missing_last.2.2.2.2.2.2.2 []⟩

/-! ## C7: representation of missing per-record numeric fields -/

/-- C7 (counterexample): in the matchup builder a pitcher-stats lookup
miss and a missing starter id both write the empty string into the
numeric ERA / SO cells — the very representation the claim says these
fields never take — not an absent value. -/
theorem era_lookup_miss_empty_string :
    lookupEraCell (fun _ => none) (IdCell.pid 999) = StatCell.emptyStr ∧
    lookupEraCell (fun _ => none) IdCell.emptyStr = StatCell.emptyStr ∧
    lookupSOCell (fun _ => none) (IdCell.pid 999) = StatCell.emptyStr ∧
    StatCell.emptyStr ≠ StatCell.absent :=
  ⟨rfl, rfl, rfl, by decide⟩

/-- C7 (amended): missing exit velocity and distance in the event fetch
are represented as absent values and never defaulted; but in the matchup
builder a missing starter identifier becomes the empty string, and an
ERA / strikeout lookup miss yields empty-string cells, not absent
ones. -/
theorem missing_numeric_fields (p : Play) (ev : PlayEvent)
    (statsMap : ℕ → Option PitcherStats) (n : ℕ) (pp : Option ProbablePitcher) :
    (firstHomeRunEvent p.playEvents = none →
      playExitVel p = none ∧ playDistance p = none) ∧
    (firstHomeRunEvent p.playEvents = some ev → ev.hitData = none →
      playExitVel p = none ∧ playDistance p = none) ∧
    (lookupEraCell statsMap IdCell.emptyStr = StatCell.emptyStr ∧
      lookupSOCell statsMap IdCell.emptyStr = StatCell.emptyStr) ∧
    (statsMap n = none →
      lookupEraCell statsMap (IdCell.pid n) = StatCell.emptyStr ∧
      lookupSOCell statsMap (IdCell.pid n) = StatCell.emptyStr) ∧
    (pitcherIdOf pp = none → starterIdCell pp = IdCell.emptyStr) := by
  refine ⟨?_, ?_, ⟨rfl, rfl⟩, ?_, ?_⟩
  · intro h
    constructor <;> simp [playExitVel, playDistance, h]
  · intro h hhd
    constructor <;> simp [playExitVel, playDistance, h, hhd]
  · intro h
    constructor <;> simp [lookupEraCell, lookupSOCell, h]
  · intro h
    simp [starterIdCell, h]

/-- Witness for missing_numeric_fields: a play with no matching
sub-event, a lookup that always misses, and an absent pitcher object. -/
theorem missing_numeric_fields_witness :
    (playExitVel exPlayNoSub = none ∧ playDistance exPlayNoSub = none) ∧
    (lookupEraCell (fun _ => none) (IdCell.pid 3) = StatCell.emptyStr ∧
      lookupSOCell (fun _ => none) (IdCell.pid 3) = StatCell.emptyStr) ∧
    starterIdCell none = IdCell.emptyStr :=
  ⟨(missing_numeric_fields exPlayNoSub ⟨none, none⟩ (fun _ => none) 3 none).1 rfl,
   (missing_numeric_fields exPlayNoSub ⟨none, none⟩ (fun _ => none) 3 none).2.2.2.1 rfl,
   (missing_numeric_fields exPlayNoSub ⟨none, none⟩ (fun _ => none) 3 none).2.2.2.2 rfl⟩

/-! ## Report-writer helper lemmas -/

/-- Replacing-or-appending a sheet makes its content retrievable. -/
theorem getSheet_setSheet_self (wb : Workbook) (n : String) (t : Table) :
    getSheet (setSheet wb n t) n = some t := by
  induction wb with
  | nil => simp [setSheet, getSheet]
  | cons p ps ih =>
    rw [setSheet]
    by_cases h : p.1 = n
    · rw [if_pos h, getSheet, if_pos rfl]
    · rw [if_neg h, getSheet, if_neg h]
      exact ih

/-- Replacing-or-appending one sheet leaves every other sheet's content
unchanged. -/
theorem getSheet_setSheet_ne (wb : Workbook) (n : String) (t : Table)
    (m : String) (hne : m ≠ n) :
    getSheet (setSheet wb n t) m = getSheet wb m := by
  induction wb with
  | nil =>
    show getSheet [(n, t)] m = none
    rw [getSheet, if_neg (show ¬((n, t).1 = m) from fun hh => hne hh.symm)]
    rfl
  | cons p ps ih =>
    rw [setSheet]
    by_cases h : p.1 = n
    · rw [if_pos h, getSheet, getSheet,
        if_neg (show ¬((n, t).1 = m) from fun hh => hne hh.symm),
        if_neg (fun hh => (Ne.symm hne) (h.symm.trans hh))]
    · rw [if_neg h, getSheet, getSheet, ih]

/-- Sheet presence after a replace-or-append. -/
theorem hasSheet_setSheet (wb : Workbook) (n : String) (t : Table) (m : String) :
    hasSheet (setSheet wb n t) m = (decide (n = m) || hasSheet wb m) := by
  induction wb with
  | nil => simp [setSheet, hasSheet]
  | cons p ps ih =>
    rw [setSheet]
    by_cases h : p.1 = n
    · rw [if_pos h, hasSheet, hasSheet, h]
      rw [← Bool.or_assoc, Bool.or_self]
    · rw [if_neg h, hasSheet, hasSheet, ih, Bool.or_left_comm]

/-! ## C8: report-writer replace / append semantics -/

/-- C8 (counterexample): the empty daily table passed to write_sheets is
written as an empty sheet of the fresh workbook, not skipped — only the
matchups table enjoys the empty-skip. -/
theorem empty_daily_sheet_written :
    getSheet (write_sheets none [] [["B"]] "2025-06-11" none none)
      "2025-06-11_HR_Hitters" = some [] ∧
    hasSheet (write_sheets none [] [["B"]] "2025-06-11" none none)
      "2025-06-11_HR_Hitters" = true := by
  constructor <;> decide

/-- C8 (amended): targeting an existing workbook, each written sheet
replaces a namesake or is appended, every other sheet untouched; the
fresh-workbook / append / re-write scenario on sheets S and T behaves as
claimed; and in write_sheets the empty-table skip applies to the
matchups table (an empty matchups table produces no matchups sheet),
while the daily and leaderboard tables are written even when empty. -/
theorem report_writer_sheets (wb : Workbook) (t : Table) (name other : String)
    (hne : other ≠ name) :
    write_sheet wb t name WMode.w = [(name, t)] ∧
    getSheet (write_sheet wb t name WMode.a) name = some t ∧
    getSheet (write_sheet wb t name WMode.a) other = getSheet wb other ∧
    (∀ tS tT tS2 : Table,
      write_sheet [] tS "S" WMode.w = [("S", tS)] ∧
      write_sheet [("S", tS)] tT "T" WMode.a = [("S", tS), ("T", tT)] ∧
      write_sheet [("S", tS), ("T", tT)] tS2 "S" WMode.a = [("S", tS2), ("T", tT)]) ∧
    (∀ d t50 : Table,
      hasSheet (write_sheets none d t50 "2025-06-11" none (some []))
        "2025-06-11_Matchups" = false) := by
  refine ⟨rfl, getSheet_setSheet_self wb name t,
    getSheet_setSheet_ne wb name t other hne, ?_, ?_⟩
  · intro tS tT tS2
    refine ⟨rfl, ?_, ?_⟩
    · show setSheet [("S", tS)] "T" tT = [("S", tS), ("T", tT)]
      rw [setSheet,
        if_neg (fun hh => absurd (show ("S" : String) = "T" from hh) (by decide))]
      rfl
    · show setSheet [("S", tS), ("T", tT)] "S" tS2 = [("S", tS2), ("T", tT)]
      rw [setSheet, if_pos rfl]
  · intro d t50
    show hasSheet
      (setSheet (setSheet [] (sheetDaily "2025-06-11") d)
        (sheetTop50 "2025-06-11") t50) (sheetMatchups "2025-06-11") = false
    rw [hasSheet_setSheet, hasSheet_setSheet]
    decide

/-- Witness for report_writer_sheets: writing sheet A then reading it
back, with a distinct other name. -/
theorem report_writer_sheets_witness :
    ("B" : String) ≠ "A" ∧
    getSheet (write_sheet [] [["x"]] "A" WMode.a) "A" = some [["x"]] :=
  ⟨by decide, (report_writer_sheets [] [["x"]] "A" "B" (by decide)).2.1⟩

/-! ## C9: the day-range event fetch -/

/-- C9: a date with an empty dates list yields an empty result, not an
error; a date with games yields the concatenated rows of every game of
the first dates entry (a doubleheader contributes both games, as the
concrete two-game example shows); each game contributes one row per play
whose event type is home_run; the sub-event chosen is the first with
type description home_run, and its hit data supplies exit velocity and
distance. -/
theorem daily_homers_correct (dstr : String) (feeds : ℕ → List Play)
    (d : DateGroup) (rest : List DateGroup) (plays : List Play)
    (p : Play) (ev : PlayEvent) (hd : HitData)
    (hfind : firstHomeRunEvent p.playEvents = some ev)
    (hhd : ev.hitData = some hd) :
    fetch_daily_homers_for dstr [] feeds = [] ∧
    fetch_daily_homers_for dstr (d :: rest) feeds
      = d.games.flatMap (fun g => gameRows dstr (feeds g.gamePk)) ∧
    (gameRows dstr plays).length
      = (plays.filter (fun q => decide (q.eventType = "home_run"))).length ∧
    ev.typeDescription = some "home_run" ∧
    (∃ pre post, p.playEvents = pre ++ ev :: post ∧
      ∀ e ∈ pre, e.typeDescription ≠ some "home_run") ∧
    playExitVel p = hd.launchSpeed ∧
    playDistance p = hd.totalDistance ∧
    fetch_daily_homers_for "2025-06-11" [⟨[⟨1⟩, ⟨2⟩]⟩]
        (fun pk => if pk = 1 then [exPlayNoSub] else [exPlayFull])
      = [playToRow "2025-06-11" exPlayNoSub, playToRow "2025-06-11" exPlayFull] := by
  obtain ⟨hp, pre, post, heq, hall⟩ := List.find?_eq_some.mp hfind
  refine ⟨rfl, rfl, by simp [gameRows], of_decide_eq_true hp,
    ⟨pre, post, heq, ?_⟩, ?_, ?_, ?_⟩
  · intro e he
    simpa using hall e he
  · simp [playExitVel, hfind, hhd]
  · simp [playDistance, hfind, hhd]
  · rfl

/-- Witness for daily_homers_correct at the concrete two-sub-event play,
discharging the find and hit-data hypotheses. -/
theorem daily_homers_correct_witness :
    firstHomeRunEvent exPlayFull.playEvents = some exHomeRunSub ∧
    playExitVel exPlayFull = some 105 :=
  ⟨rfl,
   ((daily_homers_correct "2025-06-11" (fun _ => []) ⟨[]⟩ [] [] exPlayFull
      exHomeRunSub ⟨some 105, some 410⟩ rfl rfl).2.2.2.2.2.1).trans rfl⟩

/-! ## C10: the two schedule readers disagree on an empty dates list -/

/-- C10: on a schedule response with an empty dates list, the matchup
builder's reader raises IndexError (modelled as an error value) while
the softness ranker's reader returns an empty game list; on non-empty
dates both read the first entry's games. -/
theorem schedule_readers_disagree (d : SchedDate) (rest : List SchedDate) :
    hittersReadGames [] = Except.error "list index out of range" ∧
    softReadGames [] = [] ∧
    hittersReadGames (d :: rest) = Except.ok (softReadGames (d :: rest)) :=
  ⟨rfl, rfl, rfl⟩

end SportsData
